import Mathlib

/-!
Formal model of the LiPow battery-charger firmware core, shallowly embedding
the two control loops of Src/battery.c and Src/bq25703a_regulator.c.

Machine integers (uint8 / uint16 / uint32) are modelled as Nat with explicit
truncation (% 256) where a narrowing store occurs; float arithmetic is
modelled exactly over the rationals, with float-to-uint32 stores modelled as
floor (all stored quantities in this code are non-negative).  Global mutable
state becomes explicit state records passed through the step functions;
GPIO and regulator-register writes become explicit output values.

Compile-time constants live in the C header files, which are not part of the
two source files; they are carried as fields of a Config record so theorems
quantify over them, and a concrete configuration modelled from the spec's
register map and scenario values is used for witnesses.
-/

namespace LiPow

/-- Fault registry: a bitset over the closed fault enumeration of error.h,
modelled as one Bool per flag.  Set_Error_State / Clear_Error_State become
record updates; Get_Error_State() == 0 becomes ErrorState.any = false. -/
structure ErrorState where
  regulator_communication_error : Bool
  voltage_input_error : Bool
  cell_connection_error : Bool
  cell_voltage_error : Bool
  mcu_over_temp : Bool
deriving DecidableEq

/-- Get_Error_State() != 0, i.e. at least one fault flag set. -/
def ErrorState.any (e : ErrorState) : Bool :=
  e.regulator_communication_error || e.voltage_input_error ||
    e.cell_connection_error || e.cell_voltage_error || e.mcu_over_temp

/-- The empty fault set. -/
def noErrors : ErrorState :=
  { regulator_communication_error := false
    voltage_input_error := false
    cell_connection_error := false
    cell_voltage_error := false
    mcu_over_temp := false }

/-- Compile-time configuration constants from the C headers (battery.h,
bq25703a_regulator.h, main.h), which are outside the two source files.
Voltages are in millivolts, powers in milliwatts, currents in milliamps,
temperatures in degrees C, matching how the source uses them. -/
structure Config where
  VOLTAGE_CONNECTED_THRESHOLD : ℕ
  MIN_CELL_V_FOR_BALANCING : ℕ
  CELL_VOLTAGE_TO_ENABLE_CHARGING : ℕ
  CELL_DELTA_V_ENABLE_BALANCING : ℕ
  CELL_BALANCING_HYSTERESIS_V : ℕ
  CELL_BALANCING_SCALAR_MAX : ℚ
  CELL_OVER_VOLTAGE_ENABLE_DISCHARGE : ℕ
  CELL_OVER_VOLTAGE_DISABLE_CHARGING : ℕ
  MIN_CELL_VOLTAGE_SAFE_LIMIT : ℕ
  MAX_MCU_TEMP_C_FOR_OPERATION : ℚ
  MCU_TEMP_C_RECOVERY : ℚ
  MAX_CHARGE_CURRENT_MA : ℕ
  MAX_CHARGING_POWER : ℕ
  ASSUME_EFFICIENCY : ℚ
  TEMP_THROTTLE_THRESH_C : ℚ
  CHARGE_TERM_CURRENT_MA : ℚ
  BATTERY_DISCONNECT_THRESH : ℚ
  REG_ADC_MULTIPLIER : ℚ
  BATTERY_ADC_MULTIPLIER : ℚ

/-- Modelled from the spec: a concrete configuration consistent with the
spec's register map, scenario values (S1, S3, S5) and stated thresholds
(T_THROTTLE = 20 C, V_CELL_OV_DISCHARGE = 4.20 V, device current ceiling
8128 mA, efficiency 0.9); used to instantiate witnesses and
counterexamples.  The header files carrying the real values are not among
the source files. -/
def defaultConfig : Config :=
  { VOLTAGE_CONNECTED_THRESHOLD := 2000
    MIN_CELL_V_FOR_BALANCING := 3000
    CELL_VOLTAGE_TO_ENABLE_CHARGING := 4100
    CELL_DELTA_V_ENABLE_BALANCING := 100
    CELL_BALANCING_HYSTERESIS_V := 50
    CELL_BALANCING_SCALAR_MAX := 10
    CELL_OVER_VOLTAGE_ENABLE_DISCHARGE := 4200
    CELL_OVER_VOLTAGE_DISABLE_CHARGING := 4250
    MIN_CELL_VOLTAGE_SAFE_LIMIT := 2500
    MAX_MCU_TEMP_C_FOR_OPERATION := 70
    MCU_TEMP_C_RECOVERY := 60
    MAX_CHARGE_CURRENT_MA := 8128
    MAX_CHARGING_POWER := 60000
    ASSUME_EFFICIENCY := 9/10
    TEMP_THROTTLE_THRESH_C := 20
    CHARGE_TERM_CURRENT_MA := 100
    BATTERY_DISCONNECT_THRESH := 4300
    REG_ADC_MULTIPLIER := 1000
    BATTERY_ADC_MULTIPLIER := 1000 }

/-- Storing a non-negative float into a uint32 truncates toward zero;
modelled as the floor of the exact rational value. -/
def u32trunc (q : ℚ) : ℕ := (Int.floor q).toNat

/-- Modelled from the spec: ENABLE_BALANCING compile-time flag; the claims
concern the balancing build, so it is fixed to true. -/
def ENABLE_BALANCING : Bool := true

/-! ## Register codec constants for Set_Charge_Voltage

Modelled from the spec's register map: MaxChargeVoltage is a two-byte
additive-millivolt register (MSB bit k adds 256 * 2^k mV, LSB bit k adds
2^k mV with 16 mV granularity) and MinimumSystemVoltage is a one-byte
additive register (bit k adds 256 * 2^k mV).  Each MAX_VOLT_ADD / MIN_VOLT_ADD
macro is the byte contribution of its named millivolt amount; these macros
live in bq25703a_regulator.h, outside the source files. -/

def MAX_VOLT_ADD_16384_MV : ℕ := 64

def MAX_VOLT_ADD_8192_MV : ℕ := 32

def MAX_VOLT_ADD_4096_MV : ℕ := 16

def MAX_VOLT_ADD_256_MV : ℕ := 1

def MAX_VOLT_ADD_128_MV : ℕ := 128

def MAX_VOLT_ADD_64_MV : ℕ := 64

def MAX_VOLT_ADD_32_MV : ℕ := 32

def MAX_VOLT_ADD_16_MV : ℕ := 16

def MIN_VOLT_ADD_8192_MV : ℕ := 32

def MIN_VOLT_ADD_4096_MV : ℕ := 16

def MIN_VOLT_ADD_2048_MV : ℕ := 8

def MIN_VOLT_ADD_1024_MV : ℕ := 4

def MIN_VOLT_ADD_512_MV : ℕ := 2

def MIN_VOLT_ADD_256_MV : ℕ := 1

/-- Register bytes written by Set_Charge_Voltage: the MinimumSystemVoltage
byte, the MaxChargeVoltage low byte (register_2, written first) and the
MaxChargeVoltage high byte (register_1). -/
structure ChargeVoltageRegs where
  min_sys : ℕ
  max_charge_lsb : ℕ
  max_charge_msb : ℕ
deriving DecidableEq

/-- Set_Charge_Voltage (bq25703a_regulator.c, non-FIXED_VOLTAGE_CHARGING
build): the guard (number_of_cells > 0) || (number_of_cells < 5) is a
tautology, so the switch always runs; cases 1..4 select the per-cell-count
table entries and every other count takes the default branch. -/
def Set_Charge_Voltage (number_of_cells : ℕ) : ChargeVoltageRegs :=
  match number_of_cells with
  | 1 =>
    { min_sys := MIN_VOLT_ADD_2048_MV ||| MIN_VOLT_ADD_512_MV ||| MIN_VOLT_ADD_256_MV
      max_charge_lsb := MAX_VOLT_ADD_64_MV ||| MAX_VOLT_ADD_32_MV
      max_charge_msb := MAX_VOLT_ADD_4096_MV }
  | 2 =>
    { min_sys := MIN_VOLT_ADD_4096_MV ||| MIN_VOLT_ADD_1024_MV ||| MIN_VOLT_ADD_512_MV
      max_charge_lsb := MAX_VOLT_ADD_128_MV ||| MAX_VOLT_ADD_64_MV ||| MAX_VOLT_ADD_16_MV
      max_charge_msb := MAX_VOLT_ADD_8192_MV }
  | 3 =>
    { min_sys := MIN_VOLT_ADD_8192_MV ||| MIN_VOLT_ADD_256_MV
      max_charge_lsb := MAX_VOLT_ADD_32_MV ||| MAX_VOLT_ADD_16_MV
      max_charge_msb := MAX_VOLT_ADD_8192_MV ||| MAX_VOLT_ADD_4096_MV ||| MAX_VOLT_ADD_256_MV }
  | 4 =>
    { min_sys := MIN_VOLT_ADD_8192_MV ||| MIN_VOLT_ADD_2048_MV ||| MIN_VOLT_ADD_1024_MV
      max_charge_lsb := MAX_VOLT_ADD_128_MV ||| MAX_VOLT_ADD_32_MV
      max_charge_msb := MAX_VOLT_ADD_16384_MV ||| MAX_VOLT_ADD_256_MV }
  | _ =>
    { min_sys := MIN_VOLT_ADD_1024_MV
      max_charge_lsb := 0
      max_charge_msb := 0 }

/-- Millivolts encoded by a ChargeVoltageRegs MaxChargeVoltage pair. -/
def ChargeVoltageRegs.maxChargeMv (r : ChargeVoltageRegs) : ℕ :=
  256 * r.max_charge_msb + r.max_charge_lsb

/-! ## Balance_Connection_State: cell-count inference (battery.c) -/

/-- Modelled from the spec: contiguous-prefix acceptance masks from
battery.h.  THREE_S_BITMASK covers the three cells below cell 4, and so on
down the ladder. -/
def THREE_S_BITMASK : ℕ := 7

/-- Modelled from the spec: acceptance mask for the two cells below cell 3. -/
def TWO_S_BITMASK : ℕ := 3

/-- Modelled from the spec: acceptance mask for the cell below cell 2. -/
def ONE_S_BITMASK : ℕ := 1

/-- The cell-count inference cascade of Balance_Connection_State
(battery.c lines 127-160): given the connected-cell bitmask, produce
number_of_cells and the updated fault registry (CELL_CONNECTION_ERROR set
or cleared). -/
def inferCellCount (mask : ℕ) (e : ErrorState) : ℕ × ErrorState :=
  if mask &&& 8 ≠ 0 then
    if mask &&& THREE_S_BITMASK = THREE_S_BITMASK then
      (4, { e with cell_connection_error := false })
    else
      (0, { e with cell_connection_error := true })
  else if mask &&& 4 ≠ 0 then
    if mask &&& TWO_S_BITMASK = TWO_S_BITMASK then
      (3, { e with cell_connection_error := false })
    else
      (0, { e with cell_connection_error := true })
  else if mask &&& 2 ≠ 0 then
    if mask &&& ONE_S_BITMASK = ONE_S_BITMASK then
      (2, { e with cell_connection_error := false })
    else
      (0, { e with cell_connection_error := true })
  else
    (0, { e with cell_connection_error := false })

/-- ADC readings consumed by the Battery Monitor; Get_Cell_Voltage(i) is
cell_voltage i, the tap voltages are the 2S/3S/4S ladder readings. -/
structure AdcReadings where
  battery_voltage : ℕ
  cell_voltage : ℕ → ℕ
  two_s_voltage : ℕ
  three_s_voltage : ℕ
  four_s_voltage : ℕ
  mcu_temp : ℚ

/-- The bitmask-update cascade of Balance_Connection_State (battery.c lines
102-125): set or clear each ladder bit of the static
cell_connected_bitmask (a uint8) from the tap and cell readings. -/
def computeCellMask (cfg : Config) (r : AdcReadings) (m0 : ℕ) : ℕ :=
  let m1 :=
    if r.four_s_voltage > cfg.VOLTAGE_CONNECTED_THRESHOLD ∧
        r.cell_voltage 3 > cfg.VOLTAGE_CONNECTED_THRESHOLD then
      m0 ||| 8
    else m0 &&& (255 ^^^ 8)
  let m2 :=
    if r.three_s_voltage > cfg.VOLTAGE_CONNECTED_THRESHOLD ∧
        r.cell_voltage 2 > cfg.VOLTAGE_CONNECTED_THRESHOLD then
      m1 ||| 4
    else m1 &&& (255 ^^^ 4)
  let m3 :=
    if r.two_s_voltage > cfg.VOLTAGE_CONNECTED_THRESHOLD ∧
        r.cell_voltage 1 > cfg.VOLTAGE_CONNECTED_THRESHOLD then
      m2 ||| 2
    else m2 &&& (255 ^^^ 2)
  if r.cell_voltage 0 > cfg.VOLTAGE_CONNECTED_THRESHOLD then
    m3 ||| 1
  else m3 &&& (255 ^^^ 1)

/-! ## Balance_Battery (battery.c lines 39-95) -/

/-- Battery Monitor published state (struct Battery in battery.c); the
CONNECTED / NOT_CONNECTED uint8 flags become Bool. -/
structure BatteryState where
  xt60_connected : Bool
  balance_port_connected : Bool
  number_of_cells : ℕ
  balancing_enabled : Bool
  requires_charging : Bool
  cell_over_voltage : Bool
  cell_balance_bitmask : ℕ
deriving DecidableEq

/-- The running-minimum loop of Balance_Battery: start at cell 0's voltage
and scan cells 1 .. n-1. -/
def cellMin (v : ℕ → ℕ) (n : ℕ) : ℕ :=
  (List.range' 1 (n - 1)).foldl (fun m i => if v i < m then v i else m) (v 0)

/-- The running-maximum loop of Balance_Battery: start at cell 0's voltage
and scan cells 1 .. n-1. -/
def cellMax (v : ℕ → ℕ) (n : ℕ) : ℕ :=
  (List.range' 1 (n - 1)).foldl (fun m i => if v i > m then v i else m) (v 0)

/-- The threshold scalar of Balance_Battery (battery.c lines 54-65): when
the XT60 is connected, scale the balancing thresholds and clamp below at 1;
otherwise the scalar is 1. -/
def balScalar (cfg : Config) (xt60_connected : Bool) (max_cell_voltage : ℕ) : ℚ :=
  if xt60_connected then
    let s : ℚ := cfg.CELL_BALANCING_SCALAR_MAX *
      (1 - (((max_cell_voltage : ℚ) - (cfg.MIN_CELL_V_FOR_BALANCING : ℚ)) /
        ((cfg.CELL_VOLTAGE_TO_ENABLE_CHARGING : ℚ) - (cfg.MIN_CELL_V_FOR_BALANCING : ℚ))))
    if s < 1 then 1 else s
  else 1

/-- The scalar as the spec words it: max(1, CELL_BALANCING_SCALAR_MAX *
(1 - (vmax - V_CELL_MIN_BALANCE) / (V_CELL_CHARGE_ENABLE -
V_CELL_MIN_BALANCE))) when the XT60 is connected, and 1 otherwise. -/
def specScalar (cfg : Config) (xt60_connected : Bool) (max_cell_voltage : ℕ) : ℚ :=
  if xt60_connected then
    max 1 (cfg.CELL_BALANCING_SCALAR_MAX *
      (1 - (((max_cell_voltage : ℚ) - (cfg.MIN_CELL_V_FOR_BALANCING : ℚ)) /
        ((cfg.CELL_VOLTAGE_TO_ENABLE_CHARGING : ℚ) - (cfg.MIN_CELL_V_FOR_BALANCING : ℚ)))))
  else 1

/-- Balancing_GPIO_Control (battery.c lines 250-279): the four
discharge-resistor pins, SET (true) when the corresponding bitmask bit is
set, RESET (false) otherwise; ordered cell 4, cell 3, cell 2, cell 1. -/
def Balancing_GPIO_Control (mask : ℕ) : Bool × Bool × Bool × Bool :=
  (mask.testBit 3, mask.testBit 2, mask.testBit 1, mask.testBit 0)

/-- Output of one Balance_Battery call: the new balancing latch, the new
discharge bitmask, and the GPIO levels it drove. -/
structure BalanceResult where
  balancing_enabled : Bool
  cell_balance_bitmask : ℕ
  gpio : Bool × Bool × Bool × Bool
deriving DecidableEq

/-- Balance_Battery (battery.c lines 39-95).  Inputs are the fields of
battery_state it reads (xt60_connected, balance_port_connected,
number_of_cells, balancing_enabled, cell_balance_bitmask), the fault
registry, and the cell voltages.  The gate is ENABLE_BALANCING, balance
port connected, and empty fault set; otherwise all discharge GPIOs are
driven off and the latch is cleared. -/
def Balance_Battery (cfg : Config) (xt60_connected balance_port_connected : Bool)
    (e : ErrorState) (enabled0 : Bool) (mask0 : ℕ) (v : ℕ → ℕ) (n : ℕ) :
    BalanceResult :=
  if ENABLE_BALANCING = true ∧ balance_port_connected = true ∧ e.any = false then
    let vmin := cellMin v n
    let vmax := cellMax v n
    let scalar := balScalar cfg xt60_connected vmax
    let enabled1 :=
      if (((vmax - vmin : ℕ) : ℚ) ≥ (cfg.CELL_DELTA_V_ENABLE_BALANCING : ℚ) * scalar) ∧
          vmin > cfg.MIN_CELL_V_FOR_BALANCING ∧ enabled0 = false then
        true
      else if ((((vmax - vmin : ℕ) : ℚ) < (cfg.CELL_BALANCING_HYSTERESIS_V : ℚ) * scalar) ∧
          enabled0 = true) ∨ vmin < cfg.MIN_CELL_V_FOR_BALANCING then
        false
      else enabled0
    let mask1 := (List.range n).foldl (fun m i =>
      if enabled1 = true ∧
          (((v i - vmin : ℕ) : ℚ) ≥ (cfg.CELL_BALANCING_HYSTERESIS_V : ℚ) * scalar) then
        m ||| (1 <<< i)
      else if v i ≥ cfg.CELL_OVER_VOLTAGE_ENABLE_DISCHARGE then
        m ||| (1 <<< i)
      else
        m &&& (255 ^^^ (1 <<< i))) mask0
    { balancing_enabled := enabled1
      cell_balance_bitmask := mask1
      gpio := Balancing_GPIO_Control mask1 }
  else
    { balancing_enabled := false
      cell_balance_bitmask := mask0
      gpio := Balancing_GPIO_Control 0 }

/-! ## Battery_Connection_State (battery.c lines 201-244) -/

/-- Cell_Voltage_Safety_Check (battery.c lines 173-196): scan the connected
cells for over- and under-voltage, update CELL_VOLTAGE_ERROR, and return
the new cell_over_voltage flag together with the updated fault registry. -/
def Cell_Voltage_Safety_Check (cfg : Config) (v : ℕ → ℕ) (n : ℕ) (e : ErrorState) :
    Bool × ErrorState :=
  let flags := (List.range n).foldl (fun p i =>
    (if v i > cfg.CELL_OVER_VOLTAGE_DISABLE_CHARGING then true else p.1,
     if v i < cfg.MIN_CELL_VOLTAGE_SAFE_LIMIT then true else p.2)) (false, false)
  let e1 :=
    if flags.2 = true then { e with cell_voltage_error := true }
    else { e with cell_voltage_error := false }
  (flags.1, e1)

/-- MCU_Temperature_Safety_Check (battery.c lines 284-291): one-sided
hysteresis on the controller over-temperature fault. -/
def MCU_Temperature_Safety_Check (cfg : Config) (temp : ℚ) (e : ErrorState) :
    ErrorState :=
  if temp > cfg.MAX_MCU_TEMP_C_FOR_OPERATION then
    { e with mcu_over_temp := true }
  else if e.mcu_over_temp = true ∧ temp < cfg.MCU_TEMP_C_RECOVERY then
    { e with mcu_over_temp := false }
  else e

/-- Mutable state threaded through one Battery Monitor iteration: the
published battery_state, the fault registry, and the static
cell_connected_bitmask of battery.c. -/
structure MonitorState where
  battery : BatteryState
  errors : ErrorState
  cell_connected_bitmask : ℕ
deriving DecidableEq

/-- Result of one Battery Monitor iteration: the new state and the GPIO
levels driven by Balance_Battery, or none when the balancing step was
skipped because the regulator reported charging active. -/
structure MonitorOut where
  state : MonitorState
  gpio : Option (Bool × Bool × Bool × Bool)
deriving DecidableEq

/-- Battery_Connection_State (battery.c lines 201-244, ENABLE_BALANCING
build): XT60 detect, ladder probe and cell-count inference, controller
temperature check, cell safety check, the balancing step gated on the
regulator's charging state, and the requires-charging decision. -/
def Battery_Connection_State (cfg : Config) (r : AdcReadings)
    (regulator_charging : Bool) (s : MonitorState) : MonitorOut :=
  let xt60 := if r.battery_voltage > cfg.VOLTAGE_CONNECTED_THRESHOLD then true else false
  let mask1 := computeCellMask cfg r s.cell_connected_bitmask
  let ic := inferCellCount mask1 s.errors
  let cells := ic.1
  let e1 := ic.2
  let bport := if cells > 1 then true else false
  let e2 := MCU_Temperature_Safety_Check cfg r.mcu_temp e1
  let cv := Cell_Voltage_Safety_Check cfg r.cell_voltage cells e2
  let overV := cv.1
  let e3 := cv.2
  let bal :=
    if regulator_charging = false then
      some (Balance_Battery cfg xt60 bport e3 s.battery.balancing_enabled
        s.battery.cell_balance_bitmask r.cell_voltage cells)
    else none
  let enabled1 := match bal with
    | some b => b.balancing_enabled
    | none => s.battery.balancing_enabled
  let mask2 := match bal with
    | some b => b.cell_balance_bitmask
    | none => s.battery.cell_balance_bitmask
  let req :=
    if xt60 = true ∧ bport = true then
      if r.battery_voltage < cells * cfg.CELL_VOLTAGE_TO_ENABLE_CHARGING then true
      else false
    else false
  { state :=
      { battery :=
          { xt60_connected := xt60
            balance_port_connected := bport
            number_of_cells := cells
            balancing_enabled := enabled1
            requires_charging := req
            cell_over_voltage := overV
            cell_balance_bitmask := mask2 }
        errors := e3
        cell_connected_bitmask := mask1 }
    gpio := (bal.map fun b => b.gpio) }

/-! ## Regulator driver operations (bq25703a_regulator.c) -/

/-- Result of Set_Charge_Current: the stored regulator.max_charge_current_ma
and the two ChargeCurrent register bytes (register_1 is the high byte,
register_2 the low byte; the uint8 store of charge_current << 6 keeps the
low eight bits). -/
structure ChargeCurrentRegs where
  max_charge_current_ma : ℕ
  register_1 : ℕ
  register_2 : ℕ
deriving DecidableEq

/-- Set_Charge_Current (bq25703a_regulator.c lines 349-379): clamp the
request to MAX_CHARGE_CURRENT_MA, store it, quantize to 64 mA steps,
clamp the step count to 128, and encode the 7-bit value across the two
register bytes.  The tautological guard (charge_current >= 0) ||
(charge_current <= 128) is always true, so the encode always happens. -/
def Set_Charge_Current (cfg : Config) (charge_current_limit : ℕ) : ChargeCurrentRegs :=
  let limit :=
    if charge_current_limit > cfg.MAX_CHARGE_CURRENT_MA then cfg.MAX_CHARGE_CURRENT_MA
    else charge_current_limit
  let cc0 := if limit ≠ 0 then limit / 64 else 0
  let cc := if cc0 > 128 then 128 else cc0
  { max_charge_current_ma := limit
    register_1 := cc >>> 2
    register_2 := (cc <<< 6) % 256 }

/-- Environment read by one Regulator Controller iteration: the published
battery-monitor state, the fault registry, the USB-PD collaborator values,
and the regulator's own ADC samples. -/
structure ChargerEnv where
  xt60_connected : Bool
  balance_port_connected : Bool
  error_state : ErrorState
  input_power_ready : Bool
  cell_over_voltage : Bool
  number_of_cells : ℕ
  battery_voltage : ℕ
  vbat_voltage : ℕ
  charge_current_adc : ℕ
  requires_charging : Bool
  vbus_voltage : ℕ
  max_input_current : ℚ
  max_input_power : ℕ
  mcu_temp : ℚ

/-- Calculate_Max_Charge_Power (bq25703a_regulator.c lines 444-474): start
from VBUS times the PD-advertised input current times ASSUME_EFFICIENCY,
clamp to MAX_CHARGING_POWER, fall back to the PD-advertised input power
times ASSUME_EFFICIENCY when above it, then apply the thermal scalar
1 - (0.0333 * T - 1.66) clamped to [0, 1] whenever the controller
temperature exceeds TEMP_THROTTLE_THRESH_C.  Each uint32 store of a float
value is modelled as a floor. -/
def Calculate_Max_Charge_Power (cfg : Config) (env : ChargerEnv) : ℕ :=
  let p1 := u32trunc (((env.vbus_voltage : ℚ) / cfg.REG_ADC_MULTIPLIER) *
    env.max_input_current * cfg.ASSUME_EFFICIENCY)
  let p2 := if p1 > cfg.MAX_CHARGING_POWER then cfg.MAX_CHARGING_POWER else p1
  let p3 :=
    if p2 > env.max_input_power then
      u32trunc ((env.max_input_power : ℚ) * cfg.ASSUME_EFFICIENCY)
    else p2
  if env.mcu_temp > cfg.TEMP_THROTTLE_THRESH_C then
    let s0 : ℚ := 1 - ((333 / 10000 : ℚ) * env.mcu_temp - 166 / 100)
    let s1 := if s0 > 1 then 1 else s0
    let s2 := if s1 < 0 then 0 else s1
    u32trunc ((p3 : ℚ) * s2)
  else p3

/-- The thermal scalar as the spec words it: 1 - (0.0333 * T - 1.66)
clamped to the interval [0, 1]. -/
def specThermalScalar (temp : ℚ) : ℚ :=
  max 0 (min 1 (1 - ((333 / 10000 : ℚ) * temp - 166 / 100)))

/-- The charge power before the thermal-derate stage (the first three
steps of Calculate_Max_Charge_Power). -/
def preThrottlePower (cfg : Config) (env : ChargerEnv) : ℕ :=
  let p1 := u32trunc (((env.vbus_voltage : ℚ) / cfg.REG_ADC_MULTIPLIER) *
    env.max_input_current * cfg.ASSUME_EFFICIENCY)
  let p2 := if p1 > cfg.MAX_CHARGING_POWER then cfg.MAX_CHARGING_POWER else p1
  if p2 > env.max_input_power then
    u32trunc ((env.max_input_power : ℚ) * cfg.ASSUME_EFFICIENCY)
  else p2

/-! ## Control_Charger_Output (bq25703a_regulator.c lines 480-549) -/

/-- The output-enable preconditions of Control_Charger_Output: XT60
connected, balance port connected, empty fault set, input power ready,
and no cell over-voltage. -/
def chargerPre (env : ChargerEnv) : Prop :=
  env.xt60_connected = true ∧ env.balance_port_connected = true ∧
    env.error_state.any = false ∧ env.input_power_ready = true ∧
    env.cell_over_voltage = false

instance (env : ChargerEnv) : Decidable (chargerPre env) := by
  unfold chargerPre
  infer_instance

/-- The charge-termination condition: requires_charging reads false and
the measured charge current in mA is below CHARGE_TERM_CURRENT_MA. -/
def chargerTermCond (cfg : Config) (env : ChargerEnv) : Prop :=
  env.requires_charging = false ∧
    (((env.charge_current_adc : ℚ) / cfg.REG_ADC_MULTIPLIER) * 1000 <
      cfg.CHARGE_TERM_CURRENT_MA)

instance (cfg : Config) (env : ChargerEnv) : Decidable (chargerTermCond cfg env) := by
  unfold chargerTermCond
  infer_instance

/-- Effects of one Control_Charger_Output call: the new static
termination_counter, every Regulator_HI_Z command issued in order, and the
arguments of the Set_Charge_Voltage and Set_Charge_Current calls (the
stored clamped current for the latter). -/
structure ChargerStep where
  termination_counter : ℕ
  hiz_commands : List Bool
  charge_voltage_cells : ℕ
  charge_current_ma : ℕ
deriving DecidableEq

/-- The final high-impedance command of an iteration (every path of
Control_Charger_Output issues at least one). -/
def ChargerStep.finalHiZ (s : ChargerStep) : Bool :=
  s.hiz_commands.getLastD true

/-- Control_Charger_Output (bq25703a_regulator.c lines 480-549,
ENABLE_BALANCING build): when the preconditions hold, command the
per-cell-count charge voltage, the power-envelope current, enable the
output, run the spurious-disconnect probe, and run the termination
counter; otherwise force high-impedance and zero both setpoints.  The
static termination_counter is a uint16_t, so its increment wraps modulo
2^16 = 65536. -/
def Control_Charger_Output (cfg : Config) (env : ChargerEnv)
    (termination_counter : ℕ) : ChargerStep :=
  if chargerPre env then
    let charging_current_ma := u32trunc ((Calculate_Max_Charge_Power cfg env : ℚ) /
      ((env.battery_voltage : ℚ) / cfg.BATTERY_ADC_MULTIPLIER))
    let stored := (Set_Charge_Current cfg charging_current_ma).max_charge_current_ma
    let probe :=
      if (env.vbat_voltage : ℚ) >
          cfg.BATTERY_DISCONNECT_THRESH * (env.number_of_cells : ℚ) then
        [true, false]
      else []
    if chargerTermCond cfg env then
      if (termination_counter + 1) % 65536 > 3 then
        { termination_counter := (termination_counter + 1) % 65536
          hiz_commands := [false] ++ probe ++ [true]
          charge_voltage_cells := env.number_of_cells
          charge_current_ma := stored }
      else
        { termination_counter := (termination_counter + 1) % 65536
          hiz_commands := [false] ++ probe
          charge_voltage_cells := env.number_of_cells
          charge_current_ma := stored }
    else
      { termination_counter := 0
        hiz_commands := [false] ++ probe
        charge_voltage_cells := env.number_of_cells
        charge_current_ma := stored }
  else
    { termination_counter := termination_counter
      hiz_commands := [true]
      charge_voltage_cells := 0
      charge_current_ma := (Set_Charge_Current cfg 0).max_charge_current_ma }

/-! ## Boot-time UVP recovery (vRegulator, bq25703a_regulator.c lines 598-648) -/

/-- N_UVP_ATTEMPTS: the initial value of the static precharge_timeout. -/
def N_UVP_ATTEMPTS : ℕ := 300

/-- The outer precharge while-loop of vRegulator: while precharge_timeout
exceeds 1 and the VBAT reading before attempt k is under the recovery
threshold, run one inner pulse of 20 ticks on the very first attempt
(initial_precharge_wakeup) and 12 ticks afterwards, then decrement the
timeout.  Returns the final precharge_timeout and the list of inner pulse
tick counts, one entry per attempt. -/
def uvpAttempts (vbat : ℕ → ℚ) (thr : ℚ) : ℕ → Bool → ℕ → ℕ × List ℕ
  | 0, _, _ => (0, [])
  | t + 1, first_wakeup, k =>
    if 1 ≤ t ∧ vbat k < thr then
      let r := uvpAttempts vbat thr t false (k + 1)
      (r.1, (if first_wakeup then 20 else 12) :: r.2)
    else (t + 1, [])

/-- Observable outcome of the boot-time UVP recovery block: how many outer
attempts ran, the tick count of each inner pulse, the precharging flag and
high-impedance line after the block, and how many idle settle ticks were
spun. -/
structure UvpResult where
  attempts : ℕ
  pulses : List ℕ
  precharging : Bool
  hi_z : Bool
  idle_ticks : ℕ
deriving DecidableEq

/-- The ATTEMPT_UVP_RECOVERY block of vRegulator: run the outer precharge
loop, then, whenever the timeout is still nonzero (it always is on the
boot iteration), clear precharging_state, zero the timeout, force
high-impedance, and spin 4 idle ticks refreshing status and samples.
prechg0 and hiz0 are the precharging flag and high-impedance line on
entry. -/
def uvpRecoveryBlock (vbat : ℕ → ℚ) (thr : ℚ) (timeout0 : ℕ)
    (first_wakeup prechg0 hiz0 : Bool) : UvpResult :=
  let r := uvpAttempts vbat thr timeout0 first_wakeup 0
  let prechg1 := if r.2.length > 0 then true else prechg0
  if r.1 ≠ 0 then
    { attempts := r.2.length
      pulses := r.2
      precharging := false
      hi_z := true
      idle_ticks := 4 }
  else
    { attempts := r.2.length
      pulses := r.2
      precharging := prechg1
      hi_z := hiz0
      idle_ticks := 0 }

/-- The pulse-length pattern the claim describes: the first attempt runs 20
cooperative ticks, every later attempt runs 12. -/
def pulseShape : Bool → ℕ → List ℕ
  | _, 0 => []
  | first_wakeup, n + 1 => (if first_wakeup then 20 else 12) :: pulseShape false n

/-! ## Helper lemmas -/

theorem u32trunc_le_nat (q : ℚ) (n : ℕ) (h : q ≤ (n : ℚ)) : u32trunc q ≤ n := by
  unfold u32trunc
  have h1 : Int.floor q ≤ Int.floor ((n : ℚ)) := Int.floor_le_floor h
  rw [Int.floor_natCast] at h1
  exact Int.toNat_le.mpr h1

theorem Set_Charge_Current_stored (cfg : Config) (x : ℕ) :
    (Set_Charge_Current cfg x).max_charge_current_ma = min x cfg.MAX_CHARGE_CURRENT_MA := by
  unfold Set_Charge_Current
  dsimp only
  split_ifs with h <;> omega

theorem Set_Charge_Current_le (cfg : Config) (x : ℕ) :
    (Set_Charge_Current cfg x).max_charge_current_ma ≤ cfg.MAX_CHARGE_CURRENT_MA := by
  rw [Set_Charge_Current_stored]
  omega

theorem balScalar_eq_specScalar (cfg : Config) (xt60 : Bool) (vmax : ℕ) :
    balScalar cfg xt60 vmax = specScalar cfg xt60 vmax := by
  unfold balScalar specScalar
  cases xt60 with
  | false => rfl
  | true =>
    dsimp only
    rw [max_def]
    split_ifs <;> first | rfl | linarith

/-! ## Witness inputs

Concrete environments and voltage vectors used by the witnesses and
counterexamples below; values follow the spec's end-to-end scenarios. -/

/-- A nominal charging environment (spec scenario S1 shape, controller at
55 C): 3S pack at 12.0 V, VBUS 20 V, PD 3 A / 60 W, no faults. -/
def envThermal : ChargerEnv :=
  { xt60_connected := true
    balance_port_connected := true
    error_state := noErrors
    input_power_ready := true
    cell_over_voltage := false
    number_of_cells := 3
    battery_voltage := 12000
    vbat_voltage := 12000
    charge_current_adc := 0
    requires_charging := false
    vbus_voltage := 20000
    max_input_current := 3000
    max_input_power := 60000
    mcu_temp := 55 }

/-- envThermal with the controller at 80 C. -/
def envThermal80 : ChargerEnv := { envThermal with mcu_temp := 80 }

/-- envThermal with the controller at 15 C, below the throttle threshold. -/
def envThermal15 : ChargerEnv := { envThermal with mcu_temp := 15 }

/-- envThermal at 25 C with a voltage-input fault raised: the output-enable
preconditions fail while the termination condition still reads true. -/
def envTermFault : ChargerEnv :=
  { envThermal with
    error_state := { noErrors with voltage_input_error := true }
    mcu_temp := 25 }

/-- envThermal at 25 C with no fault: the output-enable preconditions hold
and the termination condition reads true. -/
def envTermOk : ChargerEnv := { envThermal with mcu_temp := 25 }

/-- envTermOk but requiring charging, so the termination condition fails. -/
def envTermReset : ChargerEnv := { envTermOk with requires_charging := true }

/-- Two-cell voltage vector with the minimum cell exactly at the balancing
floor (3.000 V) and a 100 mV spread. -/
def vBoundary : ℕ → ℕ := fun i => if i = 0 then 3000 else 3100

/-- Two-cell voltage vector with cell 1 above
CELL_OVER_VOLTAGE_ENABLE_DISCHARGE (4.25 V against a 4.20 V limit). -/
def vOverVolt : ℕ → ℕ := fun i => if i = 0 then 4000 else 4250

/-- Battery Monitor state used by witnesses: 3S pack detected, balancing
latch on with cell 2's discharge resistor engaged, no faults. -/
def monitorS0 : MonitorState :=
  { battery :=
      { xt60_connected := true
        balance_port_connected := true
        number_of_cells := 3
        balancing_enabled := true
        requires_charging := true
        cell_over_voltage := false
        cell_balance_bitmask := 2 }
    errors := noErrors
    cell_connected_bitmask := 7 }

/-- ADC readings for a healthy 3S pack at 3.6 V per cell. -/
def readings3S : AdcReadings :=
  { battery_voltage := 10800
    cell_voltage := fun i => if i < 3 then 3600 else 0
    two_s_voltage := 7200
    three_s_voltage := 10800
    four_s_voltage := 0
    mcu_temp := 25 }

/-! ## Claim theorems -/

/-- Claim C1: whenever the output-enable preconditions of
Control_Charger_Output fail (XT60 not connected, or balance port not
connected, or any fault set, or input power not ready, or cell
over-voltage), the iteration commands high-impedance ON, charge voltage 0
and charge current 0; in particular any set fault forces high-impedance ON
and zero commanded current. -/
theorem Control_Charger_Output_gate_off (cfg : Config) (env : ChargerEnv) (tc : ℕ)
    (h : env.xt60_connected = false ∨ env.balance_port_connected = false ∨
      env.error_state.any = true ∨ env.input_power_ready = false ∨
      env.cell_over_voltage = true) :
    (Control_Charger_Output cfg env tc).finalHiZ = true ∧
    (Control_Charger_Output cfg env tc).charge_voltage_cells = 0 ∧
    (Control_Charger_Output cfg env tc).charge_current_ma = 0 := by
  have hpre : ¬ chargerPre env := by
    unfold chargerPre
    rcases h with h | h | h | h | h <;> simp [h]
  unfold Control_Charger_Output
  rw [if_neg hpre]
  refine ⟨rfl, rfl, ?_⟩
  dsimp only
  rw [Set_Charge_Current_stored]
  omega

/-- Witness for Control_Charger_Output_gate_off at a concrete faulted
environment. -/
theorem Control_Charger_Output_gate_off_witness :
    (Control_Charger_Output defaultConfig envTermFault 2).finalHiZ = true ∧
    (Control_Charger_Output defaultConfig envTermFault 2).charge_voltage_cells = 0 ∧
    (Control_Charger_Output defaultConfig envTermFault 2).charge_current_ma = 0 :=
  Control_Charger_Output_gate_off defaultConfig envTermFault 2
    (Or.inr (Or.inr (Or.inl (by decide))))

/-- Claim C2: the cell-count inference of Balance_Connection_State rejects
every ladder bitmask whose highest set bit is 3, 2 or 1 when a lower bit
is clear (number_of_cells = 0, CELL_CONNECTION_ERROR set) and accepts the
contiguous-prefix masks (bit 3 with bits 0-2 set gives 4 cells, bit 2 with
bits 0-1 set gives 3, bit 1 with bit 0 set gives 2), clearing
CELL_CONNECTION_ERROR on acceptance. -/
theorem inferCellCount_ladder (m : ℕ) (e : ErrorState) :
    (m &&& 8 ≠ 0 → m &&& 7 ≠ 7 →
      inferCellCount m e = (0, { e with cell_connection_error := true })) ∧
    (m &&& 8 = 0 → m &&& 4 ≠ 0 → m &&& 3 ≠ 3 →
      inferCellCount m e = (0, { e with cell_connection_error := true })) ∧
    (m &&& 8 = 0 → m &&& 4 = 0 → m &&& 2 ≠ 0 → m &&& 1 ≠ 1 →
      inferCellCount m e = (0, { e with cell_connection_error := true })) ∧
    (m &&& 8 ≠ 0 → m &&& 7 = 7 →
      inferCellCount m e = (4, { e with cell_connection_error := false })) ∧
    (m &&& 8 = 0 → m &&& 4 ≠ 0 → m &&& 3 = 3 →
      inferCellCount m e = (3, { e with cell_connection_error := false })) ∧
    (m &&& 8 = 0 → m &&& 4 = 0 → m &&& 2 ≠ 0 → m &&& 1 = 1 →
      inferCellCount m e = (2, { e with cell_connection_error := false })) := by
  unfold inferCellCount THREE_S_BITMASK TWO_S_BITMASK ONE_S_BITMASK
  refine ⟨fun h1 h2 => ?_, fun h1 h2 h3 => ?_, fun h1 h2 h3 h4 => ?_,
    fun h1 h2 => ?_, fun h1 h2 h3 => ?_, fun h1 h2 h3 h4 => ?_⟩
  · rw [if_pos h1, if_neg h2]
  · rw [if_neg (not_not_intro h1), if_pos h2, if_neg h3]
  · rw [if_neg (not_not_intro h1), if_neg (not_not_intro h2), if_pos h3, if_neg h4]
  · rw [if_pos h1, if_pos h2]
  · rw [if_neg (not_not_intro h1), if_pos h2, if_pos h3]
  · rw [if_neg (not_not_intro h1), if_neg (not_not_intro h2), if_pos h3, if_pos h4]

/-- Witness for inferCellCount_ladder: mask 0b1010 (gap below bit 3) is
rejected with the fault set, mask 0b1111 is accepted as 4 cells with the
fault cleared. -/
theorem inferCellCount_ladder_witness :
    inferCellCount 10 noErrors = (0, { noErrors with cell_connection_error := true }) ∧
    inferCellCount 15 noErrors = (4, { noErrors with cell_connection_error := false }) :=
  ⟨(inferCellCount_ladder 10 noErrors).1 (by decide) (by decide),
   (inferCellCount_ladder 15 noErrors).2.2.2.1 (by decide) (by decide)⟩

/-- Claim C9: when the regulator reports charging active,
Battery_Connection_State skips the balancing step entirely: the balancing
latch, the discharge bitmask and the discharge GPIOs are untouched by the
iteration. -/
theorem Battery_Connection_State_frame (cfg : Config) (r : AdcReadings)
    (s : MonitorState) :
    (Battery_Connection_State cfg r true s).state.battery.balancing_enabled =
      s.battery.balancing_enabled ∧
    (Battery_Connection_State cfg r true s).state.battery.cell_balance_bitmask =
      s.battery.cell_balance_bitmask ∧
    (Battery_Connection_State cfg r true s).gpio = none := by
  unfold Battery_Connection_State
  simp

/-- Claim C10: whenever any fault is set or the balance port is not
connected, Balance_Battery drives all four discharge-resistor GPIOs off
and clears the balancing latch, for every cell-voltage vector, including
vectors with a cell at or above CELL_OVER_VOLTAGE_ENABLE_DISCHARGE. -/
theorem Balance_Battery_gate_closed (cfg : Config) (xt60 bport : Bool)
    (e : ErrorState) (enabled0 : Bool) (mask0 : ℕ) (v : ℕ → ℕ) (n : ℕ)
    (h : e.any = true ∨ bport = false) :
    (Balance_Battery cfg xt60 bport e enabled0 mask0 v n).gpio =
      (false, false, false, false) ∧
    (Balance_Battery cfg xt60 bport e enabled0 mask0 v n).balancing_enabled = false := by
  have hgate : ¬ (ENABLE_BALANCING = true ∧ bport = true ∧ e.any = false) := by
    rcases h with h | h <;> simp [h]
  unfold Balance_Battery
  rw [if_neg hgate]
  exact ⟨rfl, rfl⟩

/-- Witness for Balance_Battery_gate_closed: a fault is set while cell 1
sits at 4.25 V, above the 4.20 V discharge limit; the GPIOs still all go
off and the latch clears. -/
theorem Balance_Battery_gate_closed_witness :
    (Balance_Battery defaultConfig true true
      { noErrors with cell_voltage_error := true } true 2 vOverVolt 2).gpio =
      (false, false, false, false) ∧
    (Balance_Battery defaultConfig true true
      { noErrors with cell_voltage_error := true } true 2 vOverVolt 2).balancing_enabled =
      false :=
  Balance_Battery_gate_closed defaultConfig true true
    { noErrors with cell_voltage_error := true } true 2 vOverVolt 2
    (Or.inl (by decide))

/-- Claim C8 (counterexample): Set_Charge_Voltage with zero cells does not
write zeros to the MinimumSystemVoltage register; it writes the
MIN_VOLT_ADD_1024_MV bit. -/
theorem Set_Charge_Voltage_zero_counterexample :
    ¬ ((Set_Charge_Voltage 0).min_sys = 0 ∧
        (Set_Charge_Voltage 0).max_charge_lsb = 0 ∧
        (Set_Charge_Voltage 0).max_charge_msb = 0) := by
  decide

/-- Claim C8 (amended): Set_Charge_Voltage with cells = 0 writes zeros to
the MaxChargeVoltage register but MIN_VOLT_ADD_1024_MV (the 1024 mV bit,
nonzero) to MinimumSystemVoltage; for cells 1..4 it writes the fixed
per-cell-count table, whose MaxChargeVoltage values decode to 4192, 8400,
12592 and 16800 mV. -/
theorem Set_Charge_Voltage_table :
    (Set_Charge_Voltage 0).max_charge_lsb = 0 ∧
    (Set_Charge_Voltage 0).max_charge_msb = 0 ∧
    (Set_Charge_Voltage 0).min_sys = MIN_VOLT_ADD_1024_MV ∧
    MIN_VOLT_ADD_1024_MV ≠ 0 ∧
    (Set_Charge_Voltage 1).maxChargeMv = 4192 ∧
    (Set_Charge_Voltage 2).maxChargeMv = 8400 ∧
    (Set_Charge_Voltage 3).maxChargeMv = 12592 ∧
    (Set_Charge_Voltage 4).maxChargeMv = 16800 ∧
    (Set_Charge_Voltage 1).min_sys =
      MIN_VOLT_ADD_2048_MV ||| MIN_VOLT_ADD_512_MV ||| MIN_VOLT_ADD_256_MV ∧
    (Set_Charge_Voltage 2).min_sys =
      MIN_VOLT_ADD_4096_MV ||| MIN_VOLT_ADD_1024_MV ||| MIN_VOLT_ADD_512_MV ∧
    (Set_Charge_Voltage 3).min_sys = MIN_VOLT_ADD_8192_MV ||| MIN_VOLT_ADD_256_MV ∧
    (Set_Charge_Voltage 4).min_sys =
      MIN_VOLT_ADD_8192_MV ||| MIN_VOLT_ADD_2048_MV ||| MIN_VOLT_ADD_1024_MV := by
  decide

/-! ## Helper lemmas for the power envelope -/

theorem u32trunc_mul_le (p : ℕ) (s : ℚ) (n : ℕ) (hp : p ≤ n)
    (hs1 : s ≤ 1) : u32trunc ((p : ℚ) * s) ≤ n := by
  apply u32trunc_le_nat
  calc (p : ℚ) * s ≤ (p : ℚ) * 1 := by
        apply mul_le_mul_of_nonneg_left hs1 (Nat.cast_nonneg p)
    _ = (p : ℚ) := mul_one _
    _ ≤ (n : ℚ) := by exact_mod_cast hp

theorem specThermalScalar_nonneg (t : ℚ) : 0 ≤ specThermalScalar t :=
  le_max_left 0 _

theorem specThermalScalar_le_one (t : ℚ) : specThermalScalar t ≤ 1 := by
  unfold specThermalScalar
  exact max_le (by norm_num) (min_le_left 1 _)

theorem specThermalScalar_eq_zero (t : ℚ) (h : 80 ≤ t) : specThermalScalar t = 0 := by
  unfold specThermalScalar
  rw [max_eq_left]
  calc min 1 (1 - ((333 / 10000 : ℚ) * t - 166 / 100)) ≤
      1 - ((333 / 10000 : ℚ) * t - 166 / 100) := min_le_right _ _
    _ ≤ 0 := by linarith

theorem clamp_eq_max_min (s0 : ℚ) :
    (if (if s0 > 1 then (1 : ℚ) else s0) < 0 then (0 : ℚ)
      else if s0 > 1 then 1 else s0) = max 0 (min 1 s0) := by
  rw [max_def, min_def]
  split_ifs <;> linarith

theorem Calculate_eq_ite (cfg : Config) (env : ChargerEnv) :
    Calculate_Max_Charge_Power cfg env =
      if env.mcu_temp > cfg.TEMP_THROTTLE_THRESH_C then
        u32trunc ((preThrottlePower cfg env : ℚ) * specThermalScalar env.mcu_temp)
      else preThrottlePower cfg env := by
  unfold Calculate_Max_Charge_Power preThrottlePower specThermalScalar
  dsimp only
  by_cases hT : env.mcu_temp > cfg.TEMP_THROTTLE_THRESH_C
  · rw [if_pos hT, if_pos hT, clamp_eq_max_min]
  · rw [if_neg hT, if_neg hT]

theorem preThrottlePower_le (cfg : Config) (env : ChargerEnv)
    (h1 : cfg.ASSUME_EFFICIENCY ≤ 1) :
    preThrottlePower cfg env ≤ cfg.MAX_CHARGING_POWER := by
  unfold preThrottlePower
  dsimp only
  have hcap : ∀ m : ℕ, u32trunc ((m : ℚ) * cfg.ASSUME_EFFICIENCY) ≤ m := fun m =>
    u32trunc_mul_le m cfg.ASSUME_EFFICIENCY m le_rfl h1
  split_ifs with hA hB hB
  · exact le_trans (hcap env.max_input_power) (le_of_lt hB)
  · exact le_rfl
  · exact le_trans (hcap env.max_input_power) (le_trans (le_of_lt hB) (le_of_not_lt hA))
  · exact le_of_not_lt hA

/-! ## Helper lemmas for the UVP recovery loop -/

theorem uvpAttempts_len_le (vbat : ℕ → ℚ) (thr : ℚ) :
    ∀ (t : ℕ) (fw : Bool) (k : ℕ), (uvpAttempts vbat thr t fw k).2.length ≤ t - 1 := by
  intro t
  induction t with
  | zero => intro fw k; simp [uvpAttempts]
  | succ n ih =>
    intro fw k
    simp only [uvpAttempts]
    by_cases h : 1 ≤ n ∧ vbat k < thr
    · rw [if_pos h]
      dsimp only
      have := ih false (k + 1)
      simp only [List.length_cons]
      omega
    · rw [if_neg h]
      dsimp only
      simp only [List.length_nil]
      omega

theorem uvpAttempts_fst_pos (vbat : ℕ → ℚ) (thr : ℚ) :
    ∀ (t : ℕ) (fw : Bool) (k : ℕ), 1 ≤ t → 1 ≤ (uvpAttempts vbat thr t fw k).1 := by
  intro t
  induction t with
  | zero => intro fw k h; omega
  | succ n ih =>
    intro fw k _
    simp only [uvpAttempts]
    by_cases h : 1 ≤ n ∧ vbat k < thr
    · rw [if_pos h]
      dsimp only
      exact ih false (k + 1) h.1
    · rw [if_neg h]
      dsimp only
      omega

theorem uvpAttempts_shape (vbat : ℕ → ℚ) (thr : ℚ) :
    ∀ (t : ℕ) (fw : Bool) (k : ℕ),
      (uvpAttempts vbat thr t fw k).2 =
        pulseShape fw (uvpAttempts vbat thr t fw k).2.length := by
  intro t
  induction t with
  | zero => intro fw k; simp [uvpAttempts, pulseShape]
  | succ n ih =>
    intro fw k
    simp only [uvpAttempts]
    by_cases h : 1 ≤ n ∧ vbat k < thr
    · rw [if_pos h]
      dsimp only
      simp only [List.length_cons, pulseShape]
      exact congrArg (List.cons _) (ih false (k + 1))
    · rw [if_neg h]
      dsimp only
      simp [pulseShape]

/-! ## Helper lemmas for the termination counter -/

theorem charger_step_counter_inc (cfg : Config) (env : ChargerEnv) (tc : ℕ)
    (hp : chargerPre env) (hc : chargerTermCond cfg env) :
    (Control_Charger_Output cfg env tc).termination_counter = (tc + 1) % 65536 := by
  unfold Control_Charger_Output
  rw [if_pos hp]
  dsimp only
  rw [if_pos hc]
  split_ifs <;> rfl

theorem charger_step_forced (cfg : Config) (env : ChargerEnv) (tc : ℕ)
    (hp : chargerPre env) (hc : chargerTermCond cfg env)
    (h4 : 3 < (tc + 1) % 65536) :
    (Control_Charger_Output cfg env tc).finalHiZ = true := by
  unfold Control_Charger_Output
  rw [if_pos hp]
  dsimp only
  rw [if_pos hc, if_pos h4]
  unfold ChargerStep.finalHiZ
  dsimp only
  split_ifs <;> rfl

/-! ## Claim theorems, continued -/

/-- Claim C3: the boot-time UVP recovery of vRegulator performs at most
N_UVP_ATTEMPTS = 300 outer attempts, the inner pulse runs 20 cooperative
ticks on the very first attempt and 12 on every later one, and on exit the
block clears precharging, forces high-impedance and spins 4 idle settle
ticks — for every VBAT reading sequence and recovery threshold. -/
theorem vRegulator_uvp_recovery (vbat : ℕ → ℚ) (thr : ℚ) (prechg0 hiz0 : Bool) :
    (uvpRecoveryBlock vbat thr N_UVP_ATTEMPTS true prechg0 hiz0).attempts ≤
      N_UVP_ATTEMPTS ∧
    (uvpRecoveryBlock vbat thr N_UVP_ATTEMPTS true prechg0 hiz0).pulses =
      pulseShape true
        (uvpRecoveryBlock vbat thr N_UVP_ATTEMPTS true prechg0 hiz0).attempts ∧
    (uvpRecoveryBlock vbat thr N_UVP_ATTEMPTS true prechg0 hiz0).precharging = false ∧
    (uvpRecoveryBlock vbat thr N_UVP_ATTEMPTS true prechg0 hiz0).hi_z = true ∧
    (uvpRecoveryBlock vbat thr N_UVP_ATTEMPTS true prechg0 hiz0).idle_ticks = 4 := by
  have hpos : 1 ≤ (uvpAttempts vbat thr N_UVP_ATTEMPTS true 0).1 :=
    uvpAttempts_fst_pos vbat thr N_UVP_ATTEMPTS true 0 (by norm_num [N_UVP_ATTEMPTS])
  have hlen := uvpAttempts_len_le vbat thr N_UVP_ATTEMPTS true 0
  unfold uvpRecoveryBlock
  dsimp only
  rw [if_pos (by omega : (uvpAttempts vbat thr N_UVP_ATTEMPTS true 0).1 ≠ 0)]
  refine ⟨?_, uvpAttempts_shape vbat thr N_UVP_ATTEMPTS true 0, rfl, rfl, rfl⟩
  dsimp only
  unfold N_UVP_ATTEMPTS at hlen ⊢
  omega

/-- Claim C4 (counterexample): at a controller temperature of 55 C (above
50 C) the computed charge power is 44739 mW, not 0: the thermal scalar
1 - (0.0333 * 55 - 1.66) = 0.8285 is far from 0. -/
theorem Calculate_Max_Charge_Power_fifty_counterexample :
    (50 : ℚ) ≤ envThermal.mcu_temp ∧
    Calculate_Max_Charge_Power defaultConfig envThermal ≠ 0 := by
  refine ⟨by norm_num [envThermal], ?_⟩
  have h : Calculate_Max_Charge_Power defaultConfig envThermal = 44739 := by
    norm_num [Calculate_Max_Charge_Power, defaultConfig, envThermal, u32trunc]
    norm_num [show Int.toNat 54000 = 54000 from rfl]
    rfl
  rw [h]
  norm_num

/-- Claim C4 (amended): for every controller temperature T, the computed
charge power is 0 once T reaches 80 C (where the clamped scalar hits 0,
rather than at 50 C as claimed); at or below TEMP_THROTTLE_THRESH_C no
derating is applied; and above the threshold the power is multiplied by
the scalar 1 - (0.0333 * T - 1.66) clamped to [0, 1]. -/
theorem Calculate_Max_Charge_Power_thermal (cfg : Config) (env : ChargerEnv)
    (hth : cfg.TEMP_THROTTLE_THRESH_C < 80) :
    ((80 : ℚ) ≤ env.mcu_temp → Calculate_Max_Charge_Power cfg env = 0) ∧
    (env.mcu_temp ≤ cfg.TEMP_THROTTLE_THRESH_C →
      Calculate_Max_Charge_Power cfg env = preThrottlePower cfg env) ∧
    (cfg.TEMP_THROTTLE_THRESH_C < env.mcu_temp →
      Calculate_Max_Charge_Power cfg env =
        u32trunc ((preThrottlePower cfg env : ℚ) * specThermalScalar env.mcu_temp)) := by
  rw [Calculate_eq_ite]
  refine ⟨fun h80 => ?_, fun hle => ?_, fun hgt => ?_⟩
  · rw [if_pos (lt_of_lt_of_le hth h80), specThermalScalar_eq_zero env.mcu_temp h80]
    simp [u32trunc]
  · rw [if_neg (not_lt.mpr hle)]
  · rw [if_pos hgt]

/-- Witness for Calculate_Max_Charge_Power_thermal: at 80 C the power is 0,
and at 15 C (below the 20 C throttle threshold) it equals the underated
pre-throttle envelope. -/
theorem Calculate_Max_Charge_Power_thermal_witness :
    Calculate_Max_Charge_Power defaultConfig envThermal80 = 0 ∧
    Calculate_Max_Charge_Power defaultConfig envThermal15 =
      preThrottlePower defaultConfig envThermal15 :=
  ⟨(Calculate_Max_Charge_Power_thermal defaultConfig envThermal80
      (by norm_num [defaultConfig])).1
      (by norm_num [envThermal80, envThermal]),
   (Calculate_Max_Charge_Power_thermal defaultConfig envThermal15
      (by norm_num [defaultConfig])).2.1
      (by norm_num [envThermal15, envThermal, defaultConfig])⟩

/-- Claim C5: Set_Charge_Current stores exactly the request clamped to
MAX_CHARGE_CURRENT_MA, the current commanded by any Control_Charger_Output
iteration never exceeds MAX_CHARGE_CURRENT_MA, and the power computed by
Calculate_Max_Charge_Power never exceeds MAX_CHARGING_POWER (for any
efficiency factor at most 1). -/
theorem charge_envelope_bounded (cfg : Config) (env : ChargerEnv) (x tc : ℕ)
    (h1 : cfg.ASSUME_EFFICIENCY ≤ 1) :
    (Set_Charge_Current cfg x).max_charge_current_ma = min x cfg.MAX_CHARGE_CURRENT_MA ∧
    (Control_Charger_Output cfg env tc).charge_current_ma ≤ cfg.MAX_CHARGE_CURRENT_MA ∧
    Calculate_Max_Charge_Power cfg env ≤ cfg.MAX_CHARGING_POWER := by
  refine ⟨Set_Charge_Current_stored cfg x, ?_, ?_⟩
  · unfold Control_Charger_Output
    split_ifs <;> dsimp only <;> exact Set_Charge_Current_le cfg _
  · rw [Calculate_eq_ite]
    split_ifs with hT
    · exact u32trunc_mul_le _ _ _ (preThrottlePower_le cfg env h1)
        (specThermalScalar_le_one env.mcu_temp)
    · exact preThrottlePower_le cfg env h1

/-- Witness for charge_envelope_bounded at the concrete configuration and
a 9000 mA request. -/
theorem charge_envelope_bounded_witness :
    (Set_Charge_Current defaultConfig 9000).max_charge_current_ma =
      min 9000 defaultConfig.MAX_CHARGE_CURRENT_MA ∧
    (Control_Charger_Output defaultConfig envThermal 0).charge_current_ma ≤
      defaultConfig.MAX_CHARGE_CURRENT_MA ∧
    Calculate_Max_Charge_Power defaultConfig envThermal ≤
      defaultConfig.MAX_CHARGING_POWER :=
  charge_envelope_bounded defaultConfig envThermal 9000 0
    (by norm_num [defaultConfig])

/-- Two-cell voltage vector used by the C6 witness: minimum 3.050 V
(above the balancing floor) with a 150 mV spread. -/
def vSpread : ℕ → ℕ := fun i => if i = 0 then 3050 else 3200

/-- Claim C6 (counterexample): with the balancing gate open and the latch
ON, a vector whose minimum cell sits exactly at MIN_CELL_V_FOR_BALANCING
(vmin = floor, so the claim's condition vmin ≤ floor holds) keeps the
latch ON because the code tests vmin < floor strictly. -/
theorem Balance_Battery_latch_counterexample :
    cellMin vBoundary 2 ≤ defaultConfig.MIN_CELL_V_FOR_BALANCING ∧
    (Balance_Battery defaultConfig false true noErrors true 0 vBoundary 2).balancing_enabled =
      true := by
  constructor
  · norm_num [cellMin, vBoundary, List.range', defaultConfig]
  · norm_num [Balance_Battery, defaultConfig, vBoundary, cellMin, cellMax, balScalar,
      ENABLE_BALANCING, noErrors, ErrorState.any, List.range', List.range_succ]

/-- Claim C6 (amended): with the balancing gate open (balance port
connected, no faults), the latch goes OFF to ON exactly when
(vmax - vmin) reaches CELL_DELTA_V_ENABLE_BALANCING * scalar and vmin
strictly exceeds MIN_CELL_V_FOR_BALANCING, and ON to OFF exactly when
(vmax - vmin) drops below CELL_BALANCING_HYSTERESIS_V * scalar or vmin
drops strictly below MIN_CELL_V_FOR_BALANCING (not at the floor itself, as
claimed); the scalar matches the spec formula max(1, CELL_BALANCING_SCALAR_MAX
* (1 - (vmax - floor)/(charge_enable - floor))) with XT60 connected and is
1 otherwise. -/
theorem Balance_Battery_latch (cfg : Config) (xt60 : Bool) (e : ErrorState)
    (mask0 : ℕ) (v : ℕ → ℕ) (n : ℕ) (he : e.any = false) :
    balScalar cfg xt60 (cellMax v n) = specScalar cfg xt60 (cellMax v n) ∧
    ((Balance_Battery cfg xt60 true e false mask0 v n).balancing_enabled = true ↔
      (((cellMax v n - cellMin v n : ℕ) : ℚ) ≥
          (cfg.CELL_DELTA_V_ENABLE_BALANCING : ℚ) * specScalar cfg xt60 (cellMax v n) ∧
        cellMin v n > cfg.MIN_CELL_V_FOR_BALANCING)) ∧
    ((Balance_Battery cfg xt60 true e true mask0 v n).balancing_enabled = false ↔
      (((cellMax v n - cellMin v n : ℕ) : ℚ) <
          (cfg.CELL_BALANCING_HYSTERESIS_V : ℚ) * specScalar cfg xt60 (cellMax v n) ∨
        cellMin v n < cfg.MIN_CELL_V_FOR_BALANCING)) := by
  have hsc := balScalar_eq_specScalar cfg xt60 (cellMax v n)
  refine ⟨hsc, ?_, ?_⟩
  · unfold Balance_Battery
    rw [if_pos ⟨rfl, rfl, he⟩]
    dsimp only
    rw [hsc]
    by_cases hc1 : (((cellMax v n - cellMin v n : ℕ) : ℚ) ≥
        (cfg.CELL_DELTA_V_ENABLE_BALANCING : ℚ) * specScalar cfg xt60 (cellMax v n)) ∧
        cellMin v n > cfg.MIN_CELL_V_FOR_BALANCING
    · rw [if_pos ⟨hc1.1, hc1.2, rfl⟩]
      exact iff_of_true rfl hc1
    · rw [if_neg (fun h => hc1 ⟨h.1, h.2.1⟩)]
      refine iff_of_false ?_ hc1
      split_ifs <;> simp
  · unfold Balance_Battery
    rw [if_pos ⟨rfl, rfl, he⟩]
    dsimp only
    rw [hsc]
    have hc1 : ¬ ((((cellMax v n - cellMin v n : ℕ) : ℚ) ≥
        (cfg.CELL_DELTA_V_ENABLE_BALANCING : ℚ) * specScalar cfg xt60 (cellMax v n)) ∧
        cellMin v n > cfg.MIN_CELL_V_FOR_BALANCING ∧ (true = false)) := by
      intro h
      exact absurd h.2.2 (by simp)
    rw [if_neg hc1]
    by_cases hc2 : ((((cellMax v n - cellMin v n : ℕ) : ℚ) <
        (cfg.CELL_BALANCING_HYSTERESIS_V : ℚ) * specScalar cfg xt60 (cellMax v n)) ∧
        (true = true)) ∨ cellMin v n < cfg.MIN_CELL_V_FOR_BALANCING
    · rw [if_pos hc2]
      refine iff_of_true rfl ?_
      rcases hc2 with ⟨hlt, _⟩ | hfloor
      · exact Or.inl hlt
      · exact Or.inr hfloor
    · rw [if_neg hc2]
      refine iff_of_false (by simp) ?_
      intro h
      rcases h with hlt | hfloor
      · exact hc2 (Or.inl ⟨hlt, rfl⟩)
      · exact hc2 (Or.inr hfloor)

/-- Witness for Balance_Battery_latch: the OFF-to-ON equivalence applied
at a concrete spread vector turns the latch on. -/
theorem Balance_Battery_latch_witness :
    (Balance_Battery defaultConfig false true noErrors false 0 vSpread 2).balancing_enabled =
      true :=
  ((Balance_Battery_latch defaultConfig false noErrors 0 vSpread 2 (by decide)).2.1).mpr
    (by
      constructor
      · norm_num [cellMin, cellMax, vSpread, List.range', specScalar, defaultConfig]
      · norm_num [cellMin, vSpread, List.range', defaultConfig])

/-- Claim C7 (counterexample): four consecutive iterations all observe
requires_charging = false with measured current below
CHARGE_TERM_CURRENT_MA, yet the fourth iteration ends with high-impedance
OFF: the first three iterations fail the output-enable preconditions (a
fault is set), and such iterations leave the termination counter untouched
instead of resetting or advancing it, so the streak only reaches count 1. -/
theorem charge_termination_counterexample :
    chargerTermCond defaultConfig envTermFault ∧
    chargerTermCond defaultConfig envTermOk ∧
    (Control_Charger_Output defaultConfig envTermOk
      (Control_Charger_Output defaultConfig envTermFault
        (Control_Charger_Output defaultConfig envTermFault
          (Control_Charger_Output defaultConfig envTermFault
            0).termination_counter).termination_counter).termination_counter).finalHiZ =
      false := by
  refine ⟨?_, ?_, ?_⟩
  · unfold chargerTermCond
    norm_num [envTermFault, envThermal, defaultConfig]
  · unfold chargerTermCond
    norm_num [envTermOk, envThermal, defaultConfig]
  · norm_num [Control_Charger_Output, Calculate_Max_Charge_Power, Set_Charge_Current,
      chargerPre, chargerTermCond, defaultConfig, envTermOk, envTermFault, envThermal,
      u32trunc, noErrors, ErrorState.any, ChargerStep.finalHiZ]

/-- Claim C7 (amended): four consecutive iterations that pass the
output-enable preconditions and each observe requires_charging = false
with measured current below CHARGE_TERM_CURRENT_MA force high-impedance
in the fourth, provided the 16-bit termination counter does not wrap
during the streak (tc + 4 < 65536; from the reachable counter 65532 the
uint16_t wraps to 0 in the fourth iteration and nothing is forced); a
precondition-passing iteration that fails that condition resets the
termination counter to 0; an iteration that fails the preconditions
leaves the counter unchanged (itself forcing high-impedance); and the
forcing lasts one cycle: every precondition-passing iteration first
commands high-impedance OFF, re-enabling the output before termination is
re-evaluated. -/
theorem charge_termination_semantics (cfg : Config) (tc : ℕ)
    (e1 e2 e3 e4 e : ChargerEnv) :
    (tc + 4 < 65536 →
      chargerPre e1 → chargerPre e2 → chargerPre e3 → chargerPre e4 →
      chargerTermCond cfg e1 → chargerTermCond cfg e2 → chargerTermCond cfg e3 →
      chargerTermCond cfg e4 →
      (Control_Charger_Output cfg e4
        (Control_Charger_Output cfg e3
          (Control_Charger_Output cfg e2
            (Control_Charger_Output cfg e1
              tc).termination_counter).termination_counter).termination_counter).finalHiZ =
        true) ∧
    (chargerPre e → ¬ chargerTermCond cfg e →
      (Control_Charger_Output cfg e tc).termination_counter = 0) ∧
    (¬ chargerPre e →
      (Control_Charger_Output cfg e tc).termination_counter = tc ∧
      (Control_Charger_Output cfg e tc).finalHiZ = true) ∧
    (chargerPre e →
      (Control_Charger_Output cfg e tc).hiz_commands.head? = some false) := by
  refine ⟨fun hw p1 p2 p3 p4 c1 c2 c3 c4 => ?_, fun hp hnc => ?_, fun hnp => ?_,
    fun hp => ?_⟩
  · rw [charger_step_counter_inc cfg e1 tc p1 c1,
      charger_step_counter_inc cfg e2 ((tc + 1) % 65536) p2 c2,
      charger_step_counter_inc cfg e3 (((tc + 1) % 65536 + 1) % 65536) p3 c3]
    apply charger_step_forced cfg e4 _ p4 c4
    have h1 : (tc + 1) % 65536 = tc + 1 := Nat.mod_eq_of_lt (by omega)
    rw [h1]
    have h2 : (tc + 1 + 1) % 65536 = tc + 2 := Nat.mod_eq_of_lt (by omega)
    rw [h2]
    have h3 : (tc + 2 + 1) % 65536 = tc + 3 := Nat.mod_eq_of_lt (by omega)
    rw [h3]
    have h4 : (tc + 3 + 1) % 65536 = tc + 4 := Nat.mod_eq_of_lt (by omega)
    rw [h4]
    omega
  · unfold Control_Charger_Output
    rw [if_pos hp]
    dsimp only
    rw [if_neg hnc]
  · unfold Control_Charger_Output
    rw [if_neg hnp]
    exact ⟨rfl, rfl⟩
  · unfold Control_Charger_Output
    rw [if_pos hp]
    dsimp only
    split_ifs <;> rfl

/-- Witness for charge_termination_semantics: a streak of four clean
termination-condition iterations from counter 0 forces high-impedance; a
clean iteration requiring charging resets the counter; a faulted
iteration leaves the counter at 2; a clean iteration opens with a hi-Z
OFF command. -/
theorem charge_termination_semantics_witness :
    (Control_Charger_Output defaultConfig envTermOk
      (Control_Charger_Output defaultConfig envTermOk
        (Control_Charger_Output defaultConfig envTermOk
          (Control_Charger_Output defaultConfig envTermOk
            0).termination_counter).termination_counter).termination_counter).finalHiZ =
      true ∧
    (Control_Charger_Output defaultConfig envTermReset 2).termination_counter = 0 ∧
    ((Control_Charger_Output defaultConfig envTermFault 2).termination_counter = 2 ∧
      (Control_Charger_Output defaultConfig envTermFault 2).finalHiZ = true) ∧
    (Control_Charger_Output defaultConfig envTermOk 4).hiz_commands.head? =
      some false := by
  have hp : chargerPre envTermOk := by decide
  have hc : chargerTermCond defaultConfig envTermOk := by
    unfold chargerTermCond
    norm_num [envTermOk, envThermal, defaultConfig]
  refine ⟨(charge_termination_semantics defaultConfig 0 envTermOk envTermOk envTermOk
      envTermOk envTermOk).1 (by norm_num) hp hp hp hp hc hc hc hc, ?_, ?_, ?_⟩
  · exact (charge_termination_semantics defaultConfig 2 envTermOk envTermOk envTermOk
      envTermOk envTermReset).2.1 (by decide)
      (by
        unfold chargerTermCond
        norm_num [envTermReset, envTermOk, envThermal])
  · exact (charge_termination_semantics defaultConfig 2 envTermOk envTermOk envTermOk
      envTermOk envTermFault).2.2.1 (by decide)
  · exact (charge_termination_semantics defaultConfig 4 envTermOk envTermOk envTermOk
      envTermOk envTermOk).2.2.2 hp

end LiPow
